import Mathlib

/-!
# Verification of `kaag/simulation/simulator.py`

A shallow embedding of the `Simulator` class. The external collaborators
(the dynamic Bayesian network, the LLM, the retriever, the knowledge
integrator and the analyzers) are modelled as records of functions; every
collaborator call may fail, which is modelled by an `Except String`
result standing for a raised Python exception. The simulator state that
the Python object owns (the collaborator references, the configuration
and the turn counter) is an explicit record, and `run_interaction`
returns the produced value together with the updated simulator record,
the updated DBN internal state and a trace of the collaborator
invocations it performed, in order.
-/

namespace KAAG

/-- Python `Dict[str, float]` (the analysis results), as an association
list in insertion order. -/
abbrev Analysis := List (String × Rat)

/-- Python `d[k] = v` on a dict: overwrite the value in place when the key
is present, otherwise append the new binding. -/
def dictInsert (d : Analysis) (k : String) (v : Rat) : Analysis :=
  if d.any (fun p => p.1 == k) then
    d.map (fun p => if p.1 == k then (k, v) else p)
  else d ++ [(k, v)]

/-- Python `d.update(new)`: insert every binding of `new` into `d`, in order. -/
def dictUpdate (d new : Analysis) : Analysis :=
  new.foldl (fun acc p => dictInsert acc p.1 p.2) d

/-- Python `d.get(k, dflt)`. -/
def dictGet (d : Analysis) (k : String) (dflt : Rat) : Rat :=
  match d.find? (fun p => p.1 == k) with
  | some p => p.2
  | none => dflt

/-- Python `s.lower()` (modelled with ASCII character lowering). -/
def pyLower (s : String) : String := String.mk (s.toList.map Char.toLower)

/-- Helper for `pyIn`: `sub` occurs in `l` iff it is a prefix of some suffix. -/
def pyInAux (sub : List Char) : List Char → Bool
  | [] => sub.isEmpty
  | c :: rest => sub.isPrefixOf (c :: rest) || pyInAux sub rest

/-- Python `sub in s` on strings: contiguous substring containment. -/
def pyIn (sub s : String) : Bool := pyInAux sub.toList s.toList

/-- The dict returned by `dbn.get_context()`. The simulator reads the keys
`current_stage` and `metrics` out of it when formatting prompts. -/
structure DbnContext where
  current_stage : String
  metrics : String
deriving DecidableEq

/-- The merged context dict built by `_generate_context`:
`{**dbn_context, "retrieved_knowledge": ..., "integrated_knowledge": ..., "user_input": ...}`. -/
structure Context where
  current_stage : String
  metrics : String
  retrieved_knowledge : String
  integrated_knowledge : String
  user_input : String
deriving DecidableEq

/-- A trigger dict as consumed by `run_interaction`: it reads
`trigger["action"]` (for the log line) and `trigger["message"]`. -/
structure Trigger where
  action : String
  message : String
deriving DecidableEq

/-- The configuration keys this file reads: `config["simulation"]["max_turns"]`,
`config["simulation"]["end_phrases"]` and `config["triggers"]`. The logging
sub-configuration is not modelled. -/
structure SimConfig where
  max_turns : Nat
  end_phrases : List String
  triggers : List Trigger
deriving DecidableEq

/-- The DBN collaborator: the methods `run_interaction` calls on `self.dbn`,
operating on an opaque internal state `D`. An `Except.error` models a raised
exception. -/
structure DBN (D : Type) where
  get_context : D → Except String DbnContext
  update : D → Analysis → String → String → Except String D
  check_triggers : D → List Trigger → Except String (Option Trigger)
  learn_from_success : D → Rat → Except String D

/-- The LLM collaborator (`self.llm.generate`). -/
structure LLM where
  generate : String → Except String String

/-- The retriever collaborator (`self.retriever.retrieve`). -/
structure Retriever where
  retrieve : String → Except String String

/-- The knowledge-integrator collaborator (`self.knowledge_integrator.integrate`). -/
structure KnowledgeIntegrator where
  integrate : String → DbnContext → Except String String

/-- An analyzer plugin: a class name (used in the error log line) and an
`analyze` method returning a dict of float-valued scores. -/
structure Analyzer where
  name : String
  analyze : String → String → Context → Except String Analysis

/-- The state of a `Simulator` object: the collaborator references stored by
`__init__` plus the mutable `turn_count`. -/
structure Simulator (D : Type) where
  dbn : DBN D
  llm : LLM
  retriever : Retriever
  knowledge_integrator : KnowledgeIntegrator
  config : SimConfig
  analyzers : List Analyzer
  turn_count : Nat

/-- `Simulator.__init__`: stores the collaborators and the configuration and
sets `turn_count = 0` (the logging setup has no modelled effect). -/
def Simulator.init {D : Type} (dbn : DBN D) (llm : LLM) (retriever : Retriever)
    (knowledge_integrator : KnowledgeIntegrator) (config : SimConfig)
    (analyzers : List Analyzer) : Simulator D :=
  { dbn := dbn, llm := llm, retriever := retriever,
    knowledge_integrator := knowledge_integrator, config := config,
    analyzers := analyzers, turn_count := 0 }

/-- One collaborator invocation, recorded in program order. -/
inductive Event where
  | getContext : Event
  | retrieve : String → Event
  | integrate : String → Event
  | llmGenerate : String → Event
  | analyzerRun : String → Event
  | dbnUpdate : Analysis → String → String → Event
  | learnFromSuccess : Rat → Event
  | checkTriggers : Event
deriving DecidableEq

/-- The string returned when the turn limit is exceeded. -/
def maxTurnsMessage : String := "Maximum turns reached. Ending conversation."

/-- The f-string built by `_generate_plan`. -/
def plan_prompt (context : Context) : String :=
  "\n        Given the following context, generate a plan for the next response:\n        Current stage: "
  ++ context.current_stage
  ++ "\n        Metrics: " ++ context.metrics
  ++ "\n        User input: " ++ context.user_input
  ++ "\n        Integrated knowledge: " ++ context.integrated_knowledge
  ++ "\n\n        Plan:\n        "

/-- The f-string built by `_generate_response`; it interpolates the plan. -/
def response_prompt (context : Context) (plan : String) : String :=
  "\n        Context:\n        Current stage: "
  ++ context.current_stage
  ++ "\n        Metrics: " ++ context.metrics
  ++ "\n        User input: " ++ context.user_input
  ++ "\n        Integrated knowledge: " ++ context.integrated_knowledge
  ++ "\n        \n        Plan: " ++ plan
  ++ "\n        \n        Generate a response based on the above context and plan:\n        "

/-- Python `str` rendering of a string value inside a dict display. -/
def pyQuote (s : String) : String := "\x27" ++ s ++ "\x27"

/-- Python `str(context)` for the merged context dict, rendered explicitly
(key order follows the dict construction in `_generate_context`). -/
def contextStr (context : Context) : String :=
  "\x7b" ++ pyQuote "current_stage" ++ ": " ++ pyQuote context.current_stage
  ++ ", " ++ pyQuote "metrics" ++ ": " ++ pyQuote context.metrics
  ++ ", " ++ pyQuote "retrieved_knowledge" ++ ": " ++ pyQuote context.retrieved_knowledge
  ++ ", " ++ pyQuote "integrated_knowledge" ++ ": " ++ pyQuote context.integrated_knowledge
  ++ ", " ++ pyQuote "user_input" ++ ": " ++ pyQuote context.user_input
  ++ "\x7d"

/-- The entries of a `str(analysis_results)` dict display. -/
def analysisEntriesStr : Analysis → String
  | [] => ""
  | [(k, v)] => pyQuote k ++ ": " ++ toString v
  | (k, v) :: rest => pyQuote k ++ ": " ++ toString v ++ ", " ++ analysisEntriesStr rest

/-- Python `str(analysis_results)`, rendered explicitly. -/
def analysisStr (d : Analysis) : String := "\x7b" ++ analysisEntriesStr d ++ "\x7d"

/-- The f-string built by `_self_reflect` and sent to the LLM. -/
def reflection_prompt (context : Context) (plan ai_response : String)
    (analysis_results : Analysis) : String :=
  "\n        Context: " ++ contextStr context
  ++ "\n        Plan: " ++ plan
  ++ "\n        AI Response: " ++ ai_response
  ++ "\n        Analysis Results: " ++ analysisStr analysis_results
  ++ "\n        \n        Reflect on the interaction and suggest improvements:\n        "

/-- `Simulator._analyze_interaction`, starting from an accumulated `results`
dict: each analyzer is tried in order inside a `try/except Exception` that
swallows (and logs) its failure, so a failing analyzer contributes nothing
and the loop goes on. Returns the final dict and the invocation trace. -/
def analyze_interaction (analyzers : List Analyzer) (results : Analysis)
    (user_input ai_response : String) (context : Context) : Analysis × List Event :=
  match analyzers with
  | [] => (results, [])
  | a :: rest =>
    let results2 :=
      match a.analyze user_input ai_response context with
      | .ok r => dictUpdate results r
      | .error _ => results
    let out := analyze_interaction rest results2 user_input ai_response context
    (out.1, Event.analyzerRun a.name :: out.2)

/-- `Simulator._generate_context`: `dbn.get_context()`, then
`retriever.retrieve(user_input)`, then
`knowledge_integrator.integrate(user_input, dbn_context)`, then the dict
merge. An exception in any of the three calls aborts the sequence. -/
def generate_context {D : Type} (sim : Simulator D) (ds : D) (user_input : String) :
    Except String Context × List Event :=
  match sim.dbn.get_context ds with
  | .error e => (.error e, [Event.getContext])
  | .ok dbn_context =>
    match sim.retriever.retrieve user_input with
    | .error e => (.error e, [Event.getContext, Event.retrieve user_input])
    | .ok retrieved_knowledge =>
      match sim.knowledge_integrator.integrate user_input dbn_context with
      | .error e =>
        (.error e, [Event.getContext, Event.retrieve user_input, Event.integrate user_input])
      | .ok integrated_knowledge =>
        (.ok { current_stage := dbn_context.current_stage,
               metrics := dbn_context.metrics,
               retrieved_knowledge := retrieved_knowledge,
               integrated_knowledge := integrated_knowledge,
               user_input := user_input },
         [Event.getContext, Event.retrieve user_input, Event.integrate user_input])

/-- What one call to `run_interaction` produces: the returned string (or the
propagated exception), the simulator object afterwards, the DBN internal
state afterwards, and the trace of collaborator invocations. -/
structure RunResult (D : Type) where
  result : Except String String
  sim : Simulator D
  dstate : D
  trace : List Event

/-- `Simulator.run_interaction`. The turn counter is incremented first; when
it exceeds `max_turns` the fixed message is returned before any collaborator
is touched. Otherwise: build the context, ask the LLM for a plan, ask it for
a response, run the analyzers (exceptions swallowed per analyzer), call
`dbn.update`, then `_self_reflect` (one more LLM call and
`dbn.learn_from_success` on `analysis_results.get("satisfaction_score", 0.5)`),
then `dbn.check_triggers`; a truthy trigger returns its message, otherwise
the end-phrase check compares each configured phrase verbatim against the
lowercased response. Any collaborator exception other than an analyzer
exception propagates, leaving the state mutated so far in place. -/
def run_interaction {D : Type} (sim : Simulator D) (ds : D) (user_input : String) :
    RunResult D :=
  let sim1 : Simulator D := { sim with turn_count := sim.turn_count + 1 }
  if sim.turn_count + 1 > sim.config.max_turns then
    ⟨.ok maxTurnsMessage, sim1, ds, []⟩
  else
    match generate_context sim ds user_input with
    | (.error e, tr) => ⟨.error e, sim1, ds, tr⟩
    | (.ok context, tr) =>
      let pp := plan_prompt context
      match sim.llm.generate pp with
      | .error e => ⟨.error e, sim1, ds, tr ++ [Event.llmGenerate pp]⟩
      | .ok plan =>
        let rp := response_prompt context plan
        match sim.llm.generate rp with
        | .error e => ⟨.error e, sim1, ds, tr ++ [Event.llmGenerate pp, Event.llmGenerate rp]⟩
        | .ok ai_response =>
          let ar := analyze_interaction sim.analyzers [] user_input ai_response context
          let analysis_results := ar.1
          let tr1 := tr ++ [Event.llmGenerate pp, Event.llmGenerate rp] ++ ar.2
            ++ [Event.dbnUpdate analysis_results user_input ai_response]
          match sim.dbn.update ds analysis_results user_input ai_response with
          | .error e => ⟨.error e, sim1, ds, tr1⟩
          | .ok ds1 =>
            let fp := reflection_prompt context plan ai_response analysis_results
            match sim.llm.generate fp with
            | .error e => ⟨.error e, sim1, ds1, tr1 ++ [Event.llmGenerate fp]⟩
            | .ok _reflection =>
              let score := dictGet analysis_results "satisfaction_score" (1 / 2 : Rat)
              let tr2 := tr1 ++ [Event.llmGenerate fp, Event.learnFromSuccess score]
              match sim.dbn.learn_from_success ds1 score with
              | .error e => ⟨.error e, sim1, ds1, tr2⟩
              | .ok ds2 =>
                let tr3 := tr2 ++ [Event.checkTriggers]
                match sim.dbn.check_triggers ds2 sim.config.triggers with
                | .error e => ⟨.error e, sim1, ds2, tr3⟩
                | .ok (some trigger) => ⟨.ok trigger.message, sim1, ds2, tr3⟩
                | .ok none =>
                  if sim.config.end_phrases.any
                      (fun phrase => pyIn phrase (pyLower ai_response)) then
                    ⟨.ok (ai_response ++ "\nConversation ended."), sim1, ds2, tr3⟩
                  else
                    ⟨.ok ai_response, sim1, ds2, tr3⟩

/-- Run `run_interaction` once per input, threading the simulator object and
the DBN state; collect the produced results and the final states. -/
def runSeq {D : Type} : Simulator D → D → List String →
    List (Except String String) × Simulator D × D
  | sim, ds, [] => ([], sim, ds)
  | sim, ds, input :: rest =>
    let r := run_interaction sim ds input
    let out := runSeq r.sim r.dstate rest
    (r.result :: out.1, out.2)

/-- Whether an event is a `dbn.learn_from_success` invocation. -/
def Event.isLearn : Event → Bool
  | Event.learnFromSuccess _ => true
  | _ => false

/-- Spec-side definition for the error-propagation claim, following the spec
sentence: per-analyzer exceptions are swallowed, every failure of the LLM,
the retriever, the knowledge integrator or the DBN propagates uncaught. It
computes the first error any of those collaborators raises during the call
(`none` when none of them raises). -/
def specPropagatedError {D : Type} (sim : Simulator D) (ds : D) (user_input : String) :
    Option String :=
  if sim.turn_count + 1 > sim.config.max_turns then none
  else
    match sim.dbn.get_context ds with
    | .error e => some e
    | .ok dbn_context =>
      match sim.retriever.retrieve user_input with
      | .error e => some e
      | .ok retrieved_knowledge =>
        match sim.knowledge_integrator.integrate user_input dbn_context with
        | .error e => some e
        | .ok integrated_knowledge =>
          let context : Context :=
            { current_stage := dbn_context.current_stage,
              metrics := dbn_context.metrics,
              retrieved_knowledge := retrieved_knowledge,
              integrated_knowledge := integrated_knowledge,
              user_input := user_input }
          match sim.llm.generate (plan_prompt context) with
          | .error e => some e
          | .ok plan =>
            match sim.llm.generate (response_prompt context plan) with
            | .error e => some e
            | .ok ai_response =>
              let analysis_results :=
                (analyze_interaction sim.analyzers [] user_input ai_response context).1
              match sim.dbn.update ds analysis_results user_input ai_response with
              | .error e => some e
              | .ok ds1 =>
                match sim.llm.generate
                    (reflection_prompt context plan ai_response analysis_results) with
                | .error e => some e
                | .ok _ =>
                  match sim.dbn.learn_from_success ds1
                      (dictGet analysis_results "satisfaction_score" (1 / 2 : Rat)) with
                  | .error e => some e
                  | .ok ds2 =>
                    match sim.dbn.check_triggers ds2 sim.config.triggers with
                    | .error e => some e
                    | .ok _ => none

/-! ## Concrete collaborators used in witness evaluations -/

/-- A trivial DBN over `Unit` internal state. -/
def wDBN : DBN Unit :=
  { get_context := fun _ => .ok ⟨"s", "m"⟩,
    update := fun _ _ _ _ => .ok (),
    check_triggers := fun _ _ => .ok none,
    learn_from_success := fun _ _ => .ok () }

/-- An LLM that always generates the same string. -/
def wLLM (response : String) : LLM := { generate := fun _ => .ok response }

def wRetriever : Retriever := { retrieve := fun _ => .ok "k" }

def wKI : KnowledgeIntegrator := { integrate := fun _ _ => .ok "ik" }

def wConfig : SimConfig := { max_turns := 3, end_phrases := ["Goodbye"], triggers := [] }

/-- A fresh simulator with no analyzers whose LLM always answers "hello". -/
def wSim : Simulator Unit := Simulator.init wDBN (wLLM "hello") wRetriever wKI wConfig []

/-- A simulator whose turn counter already stands above the limit. -/
def wSimMax : Simulator Unit := { wSim with turn_count := 5 }

/-- A fresh simulator whose LLM always answers "Goodbye friend." while the
configured end phrase is "Goodbye" (with a capital letter). -/
def wSimCase : Simulator Unit :=
  Simulator.init wDBN (wLLM "Goodbye friend.") wRetriever wKI wConfig []

/-- A fresh simulator with the lowercase end phrase "bye" and an LLM that
answers "Good Bye all." (matching only case-insensitively). -/
def wSimBye : Simulator Unit :=
  Simulator.init wDBN (wLLM "Good Bye all.") wRetriever wKI
    { max_turns := 3, end_phrases := ["bye"], triggers := [] } []

/-- A DBN whose `check_triggers` fires on the first configured trigger. -/
def wDBNTrig : DBN Unit := { wDBN with check_triggers := fun _ trigs => .ok trigs.head? }

/-- A fresh simulator with a firing trigger; its LLM answer also contains the
configured end phrase "goodbye". -/
def wSimTrig : Simulator Unit :=
  Simulator.init wDBNTrig (wLLM "goodbye all") wRetriever wKI
    { max_turns := 3, end_phrases := ["goodbye"],
      triggers := [{ action := "act", message := "TRIGGERED" }] } []

/-! ## Helper lemmas -/

theorem run_max_eq {D : Type} (sim : Simulator D) (ds : D) (input : String)
    (h : sim.config.max_turns < sim.turn_count + 1) :
    run_interaction sim ds input =
      ⟨.ok maxTurnsMessage, { sim with turn_count := sim.turn_count + 1 }, ds, []⟩ := by
  obtain ⟨dbn, llm, retr, ki, cfg, anas, tc⟩ := sim
  unfold run_interaction
  rw [if_pos h]

theorem run_sim_eq {D : Type} (sim : Simulator D) (ds : D) (input : String) :
    (run_interaction sim ds input).sim = { sim with turn_count := sim.turn_count + 1 } := by
  obtain ⟨dbn, llm, retr, ki, cfg, anas, tc⟩ := sim
  unfold run_interaction
  dsimp only
  repeat' split
  all_goals rfl

theorem analyze_interaction_trace (analyzers : List Analyzer) (results : Analysis)
    (ui ar : String) (ctx : Context) :
    (analyze_interaction analyzers results ui ar ctx).2 =
      analyzers.map (fun a => Event.analyzerRun a.name) := by
  induction analyzers generalizing results with
  | nil => rfl
  | cons a rest ih =>
    unfold analyze_interaction
    dsimp only
    rw [List.map_cons]
    exact congrArg (List.cons (Event.analyzerRun a.name)) (ih _)

theorem analyze_interaction_results (analyzers : List Analyzer) (results : Analysis)
    (ui ar : String) (ctx : Context) :
    (analyze_interaction analyzers results ui ar ctx).1 =
      (analyzers.filterMap (fun a => (a.analyze ui ar ctx).toOption)).foldl dictUpdate results := by
  induction analyzers generalizing results with
  | nil => rfl
  | cons a rest ih =>
    unfold analyze_interaction
    dsimp only
    cases h : a.analyze ui ar ctx with
    | ok r =>
      simp only [h, List.filterMap_cons, Except.toOption, List.foldl_cons]
      exact ih (dictUpdate results r)
    | error e =>
      simp only [h, List.filterMap_cons, Except.toOption]
      exact ih results

theorem runSeq_turn_count {D : Type} (inputs : List String) (sim : Simulator D) (ds : D) :
    (runSeq sim ds inputs).2.1.turn_count = sim.turn_count + inputs.length := by
  induction inputs generalizing sim ds with
  | nil => rfl
  | cons i rest ih =>
    obtain ⟨dbn, llm, retr, ki, cfg, anas, tc⟩ := sim
    unfold runSeq
    dsimp only
    rw [ih, run_sim_eq]
    simp only [List.length_cons]
    show tc + 1 + rest.length = tc + (rest.length + 1)
    omega

theorem runSeq_max_all {D : Type} (inputs : List String) (sim : Simulator D) (ds : D)
    (h : sim.config.max_turns < sim.turn_count) :
    ∀ r ∈ (runSeq sim ds inputs).1, r = .ok maxTurnsMessage := by
  induction inputs generalizing sim ds with
  | nil =>
    intro r hr
    simp [runSeq] at hr
  | cons i rest ih =>
    intro r hr
    simp only [runSeq] at hr
    rw [run_max_eq sim ds i (Nat.lt_succ_of_lt h)] at hr
    rcases List.mem_cons.mp hr with h1 | h2
    · exact h1
    · exact ih { sim with turn_count := sim.turn_count + 1 } ds (Nat.lt_succ_of_lt h) r h2

theorem run_trigger_eq {D : Type} (sim : Simulator D) (ds : D) (input : String)
    (dctx : DbnContext) (rk ik : String) (ctx : Context)
    (plan ai_response reflection : String) (ds1 ds2 : D) (trigger : Trigger)
    (hmax : ¬ sim.turn_count + 1 > sim.config.max_turns)
    (hctx : sim.dbn.get_context ds = .ok dctx)
    (hret : sim.retriever.retrieve input = .ok rk)
    (hint : sim.knowledge_integrator.integrate input dctx = .ok ik)
    (hctxdef : ctx = ⟨dctx.current_stage, dctx.metrics, rk, ik, input⟩)
    (hplan : sim.llm.generate (plan_prompt ctx) = .ok plan)
    (hresp : sim.llm.generate (response_prompt ctx plan) = .ok ai_response)
    (hupd : sim.dbn.update ds
        (analyze_interaction sim.analyzers [] input ai_response ctx).1 input ai_response
        = .ok ds1)
    (hrefl : sim.llm.generate (reflection_prompt ctx plan ai_response
        (analyze_interaction sim.analyzers [] input ai_response ctx).1) = .ok reflection)
    (hlearn : sim.dbn.learn_from_success ds1
        (dictGet (analyze_interaction sim.analyzers [] input ai_response ctx).1
          "satisfaction_score" (1 / 2 : Rat)) = .ok ds2)
    (htrig : sim.dbn.check_triggers ds2 sim.config.triggers = .ok (some trigger)) :
    run_interaction sim ds input =
      ⟨.ok trigger.message, { sim with turn_count := sim.turn_count + 1 }, ds2,
        [Event.getContext, Event.retrieve input, Event.integrate input,
         Event.llmGenerate (plan_prompt ctx), Event.llmGenerate (response_prompt ctx plan)]
        ++ (analyze_interaction sim.analyzers [] input ai_response ctx).2
        ++ [Event.dbnUpdate (analyze_interaction sim.analyzers [] input ai_response ctx).1
              input ai_response,
            Event.llmGenerate (reflection_prompt ctx plan ai_response
              (analyze_interaction sim.analyzers [] input ai_response ctx).1),
            Event.learnFromSuccess (dictGet (analyze_interaction sim.analyzers [] input
              ai_response ctx).1 "satisfaction_score" (1 / 2 : Rat)),
            Event.checkTriggers]⟩ := by
  subst hctxdef
  simp only [run_interaction, generate_context, hctx, hret, hint, hplan, hresp, hupd,
    hrefl, hlearn, htrig]
  rw [if_neg hmax]
  simp [List.append_assoc]

theorem run_no_trigger_eq {D : Type} (sim : Simulator D) (ds : D) (input : String)
    (dctx : DbnContext) (rk ik : String) (ctx : Context)
    (plan ai_response reflection : String) (ds1 ds2 : D)
    (hmax : ¬ sim.turn_count + 1 > sim.config.max_turns)
    (hctx : sim.dbn.get_context ds = .ok dctx)
    (hret : sim.retriever.retrieve input = .ok rk)
    (hint : sim.knowledge_integrator.integrate input dctx = .ok ik)
    (hctxdef : ctx = ⟨dctx.current_stage, dctx.metrics, rk, ik, input⟩)
    (hplan : sim.llm.generate (plan_prompt ctx) = .ok plan)
    (hresp : sim.llm.generate (response_prompt ctx plan) = .ok ai_response)
    (hupd : sim.dbn.update ds
        (analyze_interaction sim.analyzers [] input ai_response ctx).1 input ai_response
        = .ok ds1)
    (hrefl : sim.llm.generate (reflection_prompt ctx plan ai_response
        (analyze_interaction sim.analyzers [] input ai_response ctx).1) = .ok reflection)
    (hlearn : sim.dbn.learn_from_success ds1
        (dictGet (analyze_interaction sim.analyzers [] input ai_response ctx).1
          "satisfaction_score" (1 / 2 : Rat)) = .ok ds2)
    (htrig : sim.dbn.check_triggers ds2 sim.config.triggers = .ok none) :
    run_interaction sim ds input =
      ⟨(if sim.config.end_phrases.any (fun phrase => pyIn phrase (pyLower ai_response)) then
          .ok (ai_response ++ "\nConversation ended.")
        else .ok ai_response),
        { sim with turn_count := sim.turn_count + 1 }, ds2,
        [Event.getContext, Event.retrieve input, Event.integrate input,
         Event.llmGenerate (plan_prompt ctx), Event.llmGenerate (response_prompt ctx plan)]
        ++ (analyze_interaction sim.analyzers [] input ai_response ctx).2
        ++ [Event.dbnUpdate (analyze_interaction sim.analyzers [] input ai_response ctx).1
              input ai_response,
            Event.llmGenerate (reflection_prompt ctx plan ai_response
              (analyze_interaction sim.analyzers [] input ai_response ctx).1),
            Event.learnFromSuccess (dictGet (analyze_interaction sim.analyzers [] input
              ai_response ctx).1 "satisfaction_score" (1 / 2 : Rat)),
            Event.checkTriggers]⟩ := by
  subst hctxdef
  simp only [run_interaction, generate_context, hctx, hret, hint, hplan, hresp, hupd,
    hrefl, hlearn, htrig]
  rw [if_neg hmax]
  by_cases hc : sim.config.end_phrases.any (fun phrase => pyIn phrase (pyLower ai_response))
  · rw [if_pos hc, if_pos hc]
    simp [List.append_assoc]
  · rw [if_neg hc, if_neg hc]
    simp [List.append_assoc]

/-! ## Claims -/

/-- C1: whenever the incremented turn counter exceeds
`config["simulation"]["max_turns"]`, `run_interaction` returns the string
"Maximum turns reached. Ending conversation."; and since the counter only
grows, every subsequent call on the same simulator (over any further inputs)
returns the same message. -/
theorem run_interaction_max_turns {D : Type} (sim : Simulator D) (ds : D) (input : String)
    (h : sim.config.max_turns < sim.turn_count + 1) :
    (run_interaction sim ds input).result = .ok maxTurnsMessage ∧
    ∀ inputs : List String,
      ∀ r ∈ (runSeq (run_interaction sim ds input).sim
              (run_interaction sim ds input).dstate inputs).1,
        r = .ok maxTurnsMessage := by
  constructor
  · rw [run_max_eq sim ds input h]
  · intro inputs r hr
    rw [run_max_eq sim ds input h] at hr
    exact runSeq_max_all inputs { sim with turn_count := sim.turn_count + 1 } ds h r hr

theorem run_interaction_max_turns_witness :
    wSimMax.config.max_turns < wSimMax.turn_count + 1 ∧
    (run_interaction wSimMax () "hi").result = .ok maxTurnsMessage ∧
    ∀ r ∈ (runSeq (run_interaction wSimMax () "hi").sim
            (run_interaction wSimMax () "hi").dstate ["a", "b"]).1,
      r = .ok maxTurnsMessage := by
  have h := run_interaction_max_turns wSimMax () "hi" (by decide)
  exact ⟨by decide, h.1, h.2 ["a", "b"]⟩

/-- C7: every call to `run_interaction` increments `turn_count` by exactly
one (whatever it returns), and running a freshly constructed simulator over a
list of inputs leaves `turn_count` equal to the number of calls. -/
theorem run_interaction_turn_count {D : Type} (dbn : DBN D) (llm : LLM) (retr : Retriever)
    (ki : KnowledgeIntegrator) (cfg : SimConfig) (anas : List Analyzer)
    (ds : D) (inputs : List String) :
    (∀ (sim : Simulator D) (ds2 : D) (input : String),
       (run_interaction sim ds2 input).sim.turn_count = sim.turn_count + 1) ∧
    (runSeq (Simulator.init dbn llm retr ki cfg anas) ds inputs).2.1.turn_count
      = inputs.length := by
  constructor
  · intro sim ds2 input
    rw [run_sim_eq]
  · rw [runSeq_turn_count]
    simp [Simulator.init]

/-- C8: the only attribute of the simulator object mutated by
`run_interaction` is `turn_count`; the config, the analyzers list and the
dbn/llm/retriever/knowledge-integrator references are untouched. -/
theorem run_interaction_frame {D : Type} (sim : Simulator D) (ds : D) (input : String) :
    (run_interaction sim ds input).sim.dbn = sim.dbn ∧
    (run_interaction sim ds input).sim.llm = sim.llm ∧
    (run_interaction sim ds input).sim.retriever = sim.retriever ∧
    (run_interaction sim ds input).sim.knowledge_integrator = sim.knowledge_integrator ∧
    (run_interaction sim ds input).sim.config = sim.config ∧
    (run_interaction sim ds input).sim.analyzers = sim.analyzers ∧
    (run_interaction sim ds input).sim.turn_count = sim.turn_count + 1 := by
  obtain ⟨dbn, llm, retr, ki, cfg, anas, tc⟩ := sim
  rw [run_sim_eq]
  exact ⟨rfl, rfl, rfl, rfl, rfl, rfl, rfl⟩

/-- C9: a call that hits the turn limit returns before invoking any
collaborator (its invocation trace is empty) and leaves the DBN state
unchanged. -/
theorem run_interaction_max_no_collaborators {D : Type} (sim : Simulator D) (ds : D)
    (input : String) (h : sim.config.max_turns < sim.turn_count + 1) :
    (run_interaction sim ds input).trace = [] ∧
    (run_interaction sim ds input).dstate = ds := by
  rw [run_max_eq sim ds input h]
  exact ⟨rfl, rfl⟩

theorem run_interaction_max_no_collaborators_witness :
    (run_interaction wSimMax () "x").trace = [] ∧
    (run_interaction wSimMax () "x").dstate = () := by
  exact run_interaction_max_no_collaborators wSimMax () "x" (by decide)

theorem filter_isLearn_analyzerRun (l : List Analyzer) :
    (l.map (fun a => Event.analyzerRun a.name)).filter Event.isLearn = [] := by
  induction l with
  | nil => rfl
  | cons a rest ih => simp [List.filter_cons, Event.isLearn, ih]

/-- C2 counterexample: on a concrete run that neither hits the turn limit nor
fires a trigger, the configured end phrase "Goodbye" occurs in the response
"Goodbye friend." under case-insensitive comparison, yet the call returns the
response unchanged, without "\nConversation ended." — the detection is not
case-insensitive in the configured phrase. -/
theorem run_end_phrase_case_counterexample :
    wSimCase.turn_count + 1 ≤ wSimCase.config.max_turns ∧
    wSimCase.dbn.check_triggers () wSimCase.config.triggers = .ok none ∧
    "Goodbye" ∈ wSimCase.config.end_phrases ∧
    pyIn (pyLower "Goodbye") (pyLower "Goodbye friend.") = true ∧
    (run_interaction wSimCase () "hi").result = .ok "Goodbye friend." ∧
    (run_interaction wSimCase () "hi").result ≠
      .ok ("Goodbye friend." ++ "\nConversation ended.") := by
  refine ⟨by decide, rfl, by decide, by decide, rfl, ?_⟩
  intro h
  rw [show (run_interaction wSimCase () "hi").result = .ok "Goodbye friend." from rfl] at h
  exact absurd (Except.ok.inj h) (by decide)

/-- C2 (amended): in a call that passes the turn check, completes the
pipeline and gets no trigger from `check_triggers`, the returned string is
`ai_response + "\nConversation ended."` exactly when some configured phrase
occurs verbatim as a substring of the lowercased `ai_response`, and the
unchanged `ai_response` otherwise: only the response side is lowercased, so
matching is case-insensitive in the response only for phrases configured in
lowercase. -/
theorem run_interaction_end_phrase {D : Type} (sim : Simulator D) (ds : D) (input : String)
    (dctx : DbnContext) (rk ik : String) (ctx : Context)
    (plan ai_response reflection : String) (ds1 ds2 : D)
    (hmax : ¬ sim.turn_count + 1 > sim.config.max_turns)
    (hctx : sim.dbn.get_context ds = .ok dctx)
    (hret : sim.retriever.retrieve input = .ok rk)
    (hint : sim.knowledge_integrator.integrate input dctx = .ok ik)
    (hctxdef : ctx = ⟨dctx.current_stage, dctx.metrics, rk, ik, input⟩)
    (hplan : sim.llm.generate (plan_prompt ctx) = .ok plan)
    (hresp : sim.llm.generate (response_prompt ctx plan) = .ok ai_response)
    (hupd : sim.dbn.update ds
        (analyze_interaction sim.analyzers [] input ai_response ctx).1 input ai_response
        = .ok ds1)
    (hrefl : sim.llm.generate (reflection_prompt ctx plan ai_response
        (analyze_interaction sim.analyzers [] input ai_response ctx).1) = .ok reflection)
    (hlearn : sim.dbn.learn_from_success ds1
        (dictGet (analyze_interaction sim.analyzers [] input ai_response ctx).1
          "satisfaction_score" (1 / 2 : Rat)) = .ok ds2)
    (htrig : sim.dbn.check_triggers ds2 sim.config.triggers = .ok none) :
    (run_interaction sim ds input).result =
      (if sim.config.end_phrases.any (fun phrase => pyIn phrase (pyLower ai_response)) then
        .ok (ai_response ++ "\nConversation ended.")
      else .ok ai_response) := by
  rw [run_no_trigger_eq sim ds input dctx rk ik ctx plan ai_response reflection ds1 ds2
    hmax hctx hret hint hctxdef hplan hresp hupd hrefl hlearn htrig]

theorem run_interaction_end_phrase_witness :
    (run_interaction wSimBye () "hi").result =
      .ok ("Good Bye all." ++ "\nConversation ended.") := by
  have h := run_interaction_end_phrase wSimBye () "hi" ⟨"s", "m"⟩ "k" "ik"
    ⟨"s", "m", "k", "ik", "hi"⟩ "Good Bye all." "Good Bye all." "Good Bye all." () ()
    (by decide) rfl rfl rfl rfl rfl rfl rfl rfl rfl rfl
  rw [h]
  rfl

/-- C3: in a call that passes the turn check, the trigger check runs on the
DBN state produced by `dbn.update` — the trace places `dbnUpdate` strictly
before `checkTriggers` — and whenever `check_triggers` returns a truthy
trigger the call returns `trigger["message"]`, the end-phrase check never
influencing the result. -/
theorem run_interaction_trigger {D : Type} (sim : Simulator D) (ds : D) (input : String)
    (dctx : DbnContext) (rk ik : String) (ctx : Context)
    (plan ai_response reflection : String) (ds1 ds2 : D) (trigger : Trigger)
    (hmax : ¬ sim.turn_count + 1 > sim.config.max_turns)
    (hctx : sim.dbn.get_context ds = .ok dctx)
    (hret : sim.retriever.retrieve input = .ok rk)
    (hint : sim.knowledge_integrator.integrate input dctx = .ok ik)
    (hctxdef : ctx = ⟨dctx.current_stage, dctx.metrics, rk, ik, input⟩)
    (hplan : sim.llm.generate (plan_prompt ctx) = .ok plan)
    (hresp : sim.llm.generate (response_prompt ctx plan) = .ok ai_response)
    (hupd : sim.dbn.update ds
        (analyze_interaction sim.analyzers [] input ai_response ctx).1 input ai_response
        = .ok ds1)
    (hrefl : sim.llm.generate (reflection_prompt ctx plan ai_response
        (analyze_interaction sim.analyzers [] input ai_response ctx).1) = .ok reflection)
    (hlearn : sim.dbn.learn_from_success ds1
        (dictGet (analyze_interaction sim.analyzers [] input ai_response ctx).1
          "satisfaction_score" (1 / 2 : Rat)) = .ok ds2)
    (htrig : sim.dbn.check_triggers ds2 sim.config.triggers = .ok (some trigger)) :
    (run_interaction sim ds input).result = .ok trigger.message ∧
    (run_interaction sim ds input).trace =
      [Event.getContext, Event.retrieve input, Event.integrate input,
       Event.llmGenerate (plan_prompt ctx), Event.llmGenerate (response_prompt ctx plan)]
      ++ (analyze_interaction sim.analyzers [] input ai_response ctx).2
      ++ [Event.dbnUpdate (analyze_interaction sim.analyzers [] input ai_response ctx).1
            input ai_response,
          Event.llmGenerate (reflection_prompt ctx plan ai_response
            (analyze_interaction sim.analyzers [] input ai_response ctx).1),
          Event.learnFromSuccess (dictGet (analyze_interaction sim.analyzers [] input
            ai_response ctx).1 "satisfaction_score" (1 / 2 : Rat)),
          Event.checkTriggers] := by
  rw [run_trigger_eq sim ds input dctx rk ik ctx plan ai_response reflection ds1 ds2
    trigger hmax hctx hret hint hctxdef hplan hresp hupd hrefl hlearn htrig]
  exact ⟨rfl, rfl⟩

theorem run_interaction_trigger_witness :
    pyIn "goodbye" (pyLower "goodbye all") = true ∧
    (run_interaction wSimTrig () "hi").result = .ok "TRIGGERED" := by
  have h := run_interaction_trigger wSimTrig () "hi" ⟨"s", "m"⟩ "k" "ik"
    ⟨"s", "m", "k", "ik", "hi"⟩ "goodbye all" "goodbye all" "goodbye all" () ()
    { action := "act", message := "TRIGGERED" }
    (by decide) rfl rfl rfl rfl rfl rfl rfl rfl rfl rfl
  exact ⟨by decide, h.1⟩

/-- C4: `_analyze_interaction` swallows every analyzer exception: each
analyzer in the list is invoked, also after an earlier one failed, and the
returned dict is the in-order merge of the results of exactly the analyzers
that did not raise; the function itself returns normally in every case. -/
theorem analyze_interaction_swallows_errors (analyzers : List Analyzer)
    (ui ar : String) (ctx : Context) :
    (analyze_interaction analyzers [] ui ar ctx).2 =
      analyzers.map (fun a => Event.analyzerRun a.name) ∧
    (analyze_interaction analyzers [] ui ar ctx).1 =
      (analyzers.filterMap (fun a => (a.analyze ui ar ctx).toOption)).foldl dictUpdate [] :=
  ⟨analyze_interaction_trace analyzers [] ui ar ctx,
   analyze_interaction_results analyzers [] ui ar ctx⟩

/-- C5: `run_interaction` raises exactly when the LLM, the retriever, the
knowledge integrator or the DBN raises, and propagates that same exception;
analyzer exceptions never surface. -/
theorem run_interaction_error_propagation {D : Type} (sim : Simulator D) (ds : D)
    (input : String) (e : String) :
    (run_interaction sim ds input).result = .error e ↔
      specPropagatedError sim ds input = some e := by
  by_cases hmax : sim.turn_count + 1 > sim.config.max_turns
  · rw [run_max_eq sim ds input hmax]
    unfold specPropagatedError
    rw [if_pos hmax]
    simp
  · simp only [run_interaction, specPropagatedError, generate_context]
    rw [if_neg hmax, if_neg hmax]
    cases hctx : sim.dbn.get_context ds with
    | error e0 => simp [hctx]
    | ok dctx =>
      simp only [hctx]
      cases hret : sim.retriever.retrieve input with
      | error e0 => simp [hret]
      | ok rk =>
        simp only [hret]
        cases hint : sim.knowledge_integrator.integrate input dctx with
        | error e0 => simp [hint]
        | ok ik =>
          simp only [hint]
          cases hplan : sim.llm.generate
              (plan_prompt ⟨dctx.current_stage, dctx.metrics, rk, ik, input⟩) with
          | error e0 => simp [hplan]
          | ok plan =>
            simp only [hplan]
            cases hresp : sim.llm.generate
                (response_prompt ⟨dctx.current_stage, dctx.metrics, rk, ik, input⟩ plan) with
            | error e0 => simp [hresp]
            | ok ai_response =>
              simp only [hresp]
              cases hupd : sim.dbn.update ds
                  (analyze_interaction sim.analyzers [] input ai_response
                    ⟨dctx.current_stage, dctx.metrics, rk, ik, input⟩).1 input ai_response with
              | error e0 => simp [hupd]
              | ok ds1 =>
                simp only [hupd]
                cases hrefl : sim.llm.generate
                    (reflection_prompt ⟨dctx.current_stage, dctx.metrics, rk, ik, input⟩ plan
                      ai_response (analyze_interaction sim.analyzers [] input ai_response
                        ⟨dctx.current_stage, dctx.metrics, rk, ik, input⟩).1) with
                | error e0 => simp [hrefl]
                | ok reflection =>
                  simp only [hrefl]
                  cases hlearn : sim.dbn.learn_from_success ds1
                      (dictGet (analyze_interaction sim.analyzers [] input ai_response
                          ⟨dctx.current_stage, dctx.metrics, rk, ik, input⟩).1
                        "satisfaction_score" (1 / 2 : Rat)) with
                  | error e0 => simp [hlearn]
                  | ok ds2 =>
                    simp only [hlearn]
                    cases htrig : sim.dbn.check_triggers ds2 sim.config.triggers with
                    | error e0 => simp [htrig]
                    | ok topt =>
                      simp only [htrig]
                      cases topt with
                      | some trigger => simp
                      | none =>
                        dsimp only
                        split <;> simp

/-- C6: in a call that passes the turn check and completes, the collaborators
are invoked in the fixed order: `dbn.get_context`, `retriever.retrieve` on
the user input, `knowledge_integrator.integrate`, the LLM plan request, the
LLM response request (whose prompt embeds the plan), the analyzers, then
`dbn.update` with the analysis results, the user input and the response, and
only after all that the trigger check. -/
theorem run_interaction_order {D : Type} (sim : Simulator D) (ds : D) (input : String)
    (dctx : DbnContext) (rk ik : String) (ctx : Context)
    (plan ai_response reflection : String) (ds1 ds2 : D) (topt : Option Trigger)
    (hmax : ¬ sim.turn_count + 1 > sim.config.max_turns)
    (hctx : sim.dbn.get_context ds = .ok dctx)
    (hret : sim.retriever.retrieve input = .ok rk)
    (hint : sim.knowledge_integrator.integrate input dctx = .ok ik)
    (hctxdef : ctx = ⟨dctx.current_stage, dctx.metrics, rk, ik, input⟩)
    (hplan : sim.llm.generate (plan_prompt ctx) = .ok plan)
    (hresp : sim.llm.generate (response_prompt ctx plan) = .ok ai_response)
    (hupd : sim.dbn.update ds
        (analyze_interaction sim.analyzers [] input ai_response ctx).1 input ai_response
        = .ok ds1)
    (hrefl : sim.llm.generate (reflection_prompt ctx plan ai_response
        (analyze_interaction sim.analyzers [] input ai_response ctx).1) = .ok reflection)
    (hlearn : sim.dbn.learn_from_success ds1
        (dictGet (analyze_interaction sim.analyzers [] input ai_response ctx).1
          "satisfaction_score" (1 / 2 : Rat)) = .ok ds2)
    (htrig : sim.dbn.check_triggers ds2 sim.config.triggers = .ok topt) :
    (run_interaction sim ds input).trace =
      [Event.getContext, Event.retrieve input, Event.integrate input,
       Event.llmGenerate (plan_prompt ctx), Event.llmGenerate (response_prompt ctx plan)]
      ++ sim.analyzers.map (fun a => Event.analyzerRun a.name)
      ++ [Event.dbnUpdate (analyze_interaction sim.analyzers [] input ai_response ctx).1
            input ai_response,
          Event.llmGenerate (reflection_prompt ctx plan ai_response
            (analyze_interaction sim.analyzers [] input ai_response ctx).1),
          Event.learnFromSuccess (dictGet (analyze_interaction sim.analyzers [] input
            ai_response ctx).1 "satisfaction_score" (1 / 2 : Rat)),
          Event.checkTriggers] := by
  cases topt with
  | some trigger =>
    rw [run_trigger_eq sim ds input dctx rk ik ctx plan ai_response reflection ds1 ds2
      trigger hmax hctx hret hint hctxdef hplan hresp hupd hrefl hlearn htrig]
    rw [show (analyze_interaction sim.analyzers [] input ai_response ctx).2 =
      sim.analyzers.map (fun a => Event.analyzerRun a.name) from
      analyze_interaction_trace sim.analyzers [] input ai_response ctx]
  | none =>
    rw [run_no_trigger_eq sim ds input dctx rk ik ctx plan ai_response reflection ds1 ds2
      hmax hctx hret hint hctxdef hplan hresp hupd hrefl hlearn htrig]
    rw [show (analyze_interaction sim.analyzers [] input ai_response ctx).2 =
      sim.analyzers.map (fun a => Event.analyzerRun a.name) from
      analyze_interaction_trace sim.analyzers [] input ai_response ctx]

theorem run_interaction_order_witness :
    (run_interaction wSimCase () "hi").trace =
      [Event.getContext, Event.retrieve "hi", Event.integrate "hi",
       Event.llmGenerate (plan_prompt ⟨"s", "m", "k", "ik", "hi"⟩),
       Event.llmGenerate (response_prompt ⟨"s", "m", "k", "ik", "hi"⟩ "Goodbye friend."),
       Event.dbnUpdate [] "hi" "Goodbye friend.",
       Event.llmGenerate (reflection_prompt ⟨"s", "m", "k", "ik", "hi"⟩ "Goodbye friend."
         "Goodbye friend." []),
       Event.learnFromSuccess (dictGet [] "satisfaction_score" (1 / 2 : Rat)),
       Event.checkTriggers] := by
  have h := run_interaction_order wSimCase () "hi" ⟨"s", "m"⟩ "k" "ik"
    ⟨"s", "m", "k", "ik", "hi"⟩ "Goodbye friend." "Goodbye friend." "Goodbye friend." () ()
    none (by decide) rfl rfl rfl rfl rfl rfl rfl rfl rfl rfl
  simpa [analyze_interaction] using h

/-- C10: in a call that passes the turn check and reaches `_self_reflect`,
`dbn.learn_from_success` is invoked exactly once — whatever `check_triggers`
or the end-phrase test decide afterwards — and its argument is
`analysis_results.get("satisfaction_score", 0.5)`. -/
theorem run_interaction_learn_once {D : Type} (sim : Simulator D) (ds : D) (input : String)
    (dctx : DbnContext) (rk ik : String) (ctx : Context)
    (plan ai_response reflection : String) (ds1 : D)
    (hmax : ¬ sim.turn_count + 1 > sim.config.max_turns)
    (hctx : sim.dbn.get_context ds = .ok dctx)
    (hret : sim.retriever.retrieve input = .ok rk)
    (hint : sim.knowledge_integrator.integrate input dctx = .ok ik)
    (hctxdef : ctx = ⟨dctx.current_stage, dctx.metrics, rk, ik, input⟩)
    (hplan : sim.llm.generate (plan_prompt ctx) = .ok plan)
    (hresp : sim.llm.generate (response_prompt ctx plan) = .ok ai_response)
    (hupd : sim.dbn.update ds
        (analyze_interaction sim.analyzers [] input ai_response ctx).1 input ai_response
        = .ok ds1)
    (hrefl : sim.llm.generate (reflection_prompt ctx plan ai_response
        (analyze_interaction sim.analyzers [] input ai_response ctx).1) = .ok reflection) :
    (run_interaction sim ds input).trace.filter Event.isLearn =
      [Event.learnFromSuccess
        (dictGet (analyze_interaction sim.analyzers [] input ai_response ctx).1
          "satisfaction_score" (1 / 2 : Rat))] := by
  subst hctxdef
  simp only [run_interaction, generate_context, hctx, hret, hint, hplan, hresp, hupd, hrefl]
  rw [if_neg hmax]
  cases hlearn : sim.dbn.learn_from_success ds1
      (dictGet (analyze_interaction sim.analyzers [] input ai_response
          ⟨dctx.current_stage, dctx.metrics, rk, ik, input⟩).1
        "satisfaction_score" (1 / 2 : Rat)) with
  | error e0 =>
    simp [hlearn, List.filter_append, Event.isLearn, analyze_interaction_trace,
      filter_isLearn_analyzerRun]
  | ok ds2 =>
    simp only [hlearn]
    cases htrig : sim.dbn.check_triggers ds2 sim.config.triggers with
    | error e0 =>
      simp [htrig, List.filter_append, Event.isLearn, analyze_interaction_trace,
        filter_isLearn_analyzerRun]
    | ok topt =>
      cases topt with
      | some trigger =>
        simp [List.filter_append, Event.isLearn, analyze_interaction_trace,
          filter_isLearn_analyzerRun]
      | none =>
        dsimp only
        split <;>
          simp [List.filter_append, Event.isLearn, analyze_interaction_trace,
            filter_isLearn_analyzerRun]

theorem run_interaction_learn_once_witness :
    (run_interaction wSim () "hi").trace.filter Event.isLearn =
      [Event.learnFromSuccess (dictGet [] "satisfaction_score" (1 / 2 : Rat))] := by
  have h := run_interaction_learn_once wSim () "hi" ⟨"s", "m"⟩ "k" "ik"
    ⟨"s", "m", "k", "ik", "hi"⟩ "hello" "hello" "hello" ()
    (by decide) rfl rfl rfl rfl rfl rfl rfl rfl
  simpa [analyze_interaction] using h

end KAAG
